import Mathlib

/-!
Shallow embedding of the JustOneMatch backend: two Firebase HTTP handlers,
verifyGoogleIdToken (Google ID token verification) and verifyPurchase
(Google Play purchase / subscription verification), translated from the
TypeScript sources.  The primary embedding follows the complete revision
(the TypeScript module stored alongside the eslint configuration, whose
identity handler agrees with src/functions/src/index.ts); the earlier
revision in src/unnamed/part_000 is embedded separately in namespace Rev0.
External effects (the token verifier, the billing backend, custom-token
minting) are passed in as oracle values, and each handler additionally
reports which external calls it performed.
-/

namespace JustOneMatch

/-- JavaScript truthiness of a possibly-undefined string value:
undefined and the empty string are falsy. -/
def jsTruthy : Option String → Bool
  | none => false
  | some s => s ≠ ""

/-- JavaScript truthiness of a possibly-undefined boolean value. -/
def jsTruthyBool : Option Bool → Bool
  | some b => b
  | none => false

/-- JavaScript String(x) applied to a possibly-undefined string value. -/
def jsString : Option String → String
  | some s => s
  | none => "undefined"

/-- Whitespace characters stripped by trimming. -/
def isJsSpace (c : Char) : Bool :=
  c = ' ' || c = '\t' || c = '\n' || c = '\r'

/-- JavaScript s.trim(): strip leading and trailing whitespace. -/
def jsTrim (s : String) : String :=
  (((s.data.dropWhile isJsSpace).reverse.dropWhile isJsSpace).reverse).asString

/-- Accumulator pass of the comma split. -/
def splitOnCommaAux : List Char → List Char → List String
  | [], acc => [acc.reverse.asString]
  | c :: cs, acc =>
    if c = ',' then acc.reverse.asString :: splitOnCommaAux cs []
    else splitOnCommaAux cs (c :: acc)

/-- JavaScript s.split(","); the empty string splits to [""]. -/
def splitOnComma (s : String) : List String :=
  splitOnCommaAux s.data []

/-- Value of a nonempty list of decimal digits, none on a non-digit. -/
def decNat : List Char → Option Nat
  | [] => none
  | l =>
    l.foldl
      (fun acc c =>
        match acc with
        | none => none
        | some n => if c.isDigit then some (n * 10 + (c.toNat - 48)) else none)
      (some 0)

/-- JavaScript Number(s) on the strings relevant here: an empty or
all-whitespace string converts to 0, an optionally negated decimal
integer string to its value, anything else to NaN (modelled as none). -/
def jsNumber (s : String) : Option Int :=
  match (s.data.dropWhile isJsSpace).reverse.dropWhile isJsSpace |>.reverse with
  | [] => some 0
  | '-' :: rest => (decNat rest).map (fun n => -(n : Int))
  | l => (decNat l).map (fun n => (n : Int))

/-- Claim set returned by the external verifier (google-auth-library
TokenPayload); every field is optional in the library's type. -/
structure TokenPayload where
  sub : Option String
  email : Option String
  email_verified : Option Bool
  iss : Option String
  aud : Option String
  name : Option String
  picture : Option String
deriving Repr, DecidableEq

/-- The googleUser object of a successful identity response. -/
structure GoogleUser where
  uid : Option String
  email : Option String
  name : Option String
  picture : Option String
deriving Repr, DecidableEq

/-- Responses the identity handler can send, one constructor per
res.status(...).json/send site in the source. -/
inductive IdResponse where
  | noContent (body : String)
  | methodNotAllowed
  | missingIdToken
  | noAudienceConfigured
  | invalidTokenPayload
  | invalidIssuer
  | invalidAudience (aud : String) (allowed : List String)
  | emailNotVerified
  | success (googleUser : GoogleUser) (firebaseCustomToken : Option String)
  | invalidGoogleIdToken (details : String)
deriving Repr, DecidableEq

/-- HTTP status attached to each identity response in the source. -/
def IdResponse.status : IdResponse → Nat
  | .noContent _ => 204
  | .methodNotAllowed => 405
  | .missingIdToken => 400
  | .noAudienceConfigured => 500
  | .invalidTokenPayload => 401
  | .invalidIssuer => 401
  | .invalidAudience _ _ => 401
  | .emailNotVerified => 401
  | .success _ _ => 200
  | .invalidGoogleIdToken _ => 401

/-- Result of one identity-handler invocation: the response sent plus
which external operations were performed along the way. -/
structure IdOutcome where
  response : IdResponse
  configResolved : Bool
  verifierCalled : Bool
  mintCalled : Bool
deriving Repr, DecidableEq

/-- Audience allowlist resolution from the source:
(ALLOWED_AUDS.value() || WEB_CLIENT_ID.value() || "").split(",")
.map(s => s.trim()).filter(Boolean).  An unset secret reads as "". -/
def resolveAllowlist (auds web : String) : List String :=
  ((splitOnComma (if auds ≠ "" then auds else if web ≠ "" then web else "")).map
    jsTrim).filter (fun s => s ≠ "")

/-- Modelled from the spec: the allowlist resolution stated as an ordered
list of configuration sources tried in priority order, first non-empty
wins, then comma-split, trim each entry, drop empties. -/
def specResolveAllowlist (sources : List String) : List String :=
  ((splitOnComma ((sources.find? (fun s => s ≠ "")).getD "")).map
    jsTrim).filter (fun s => s ≠ "")

/-- The verifyGoogleIdToken handler of the complete revision.  Inputs:
the HTTP method, the resolved idToken value (body field or x-id-token
header), the two audience secrets, the outcome of the external
verifyIdToken call followed by getPayload() (error = the verifier threw,
ok none = null payload), and the outcome of createCustomToken. -/
def verifyGoogleIdToken (method : String) (idToken : Option String)
    (audsSecret webSecret : String)
    (verifier : Except String (Option TokenPayload))
    (mint : Except String String) : IdOutcome :=
  if method = "OPTIONS" then
    ⟨.noContent "", false, false, false⟩
  else if method ≠ "POST" then
    ⟨.methodNotAllowed, false, false, false⟩
  else if ¬ jsTruthy idToken then
    ⟨.missingIdToken, false, false, false⟩
  else
    let allowedAudiences := resolveAllowlist audsSecret webSecret
    if allowedAudiences.length = 0 then
      ⟨.noAudienceConfigured, true, false, false⟩
    else
      match verifier with
      | .error e => ⟨.invalidGoogleIdToken e, true, true, false⟩
      | .ok none => ⟨.invalidTokenPayload, true, true, false⟩
      | .ok (some p) =>
        if ¬ (p.iss = some "accounts.google.com" ∨
              p.iss = some "https://accounts.google.com") then
          ⟨.invalidIssuer, true, true, false⟩
        else if ¬ allowedAudiences.contains (jsString p.aud) then
          ⟨.invalidAudience (jsString p.aud) allowedAudiences, true, true, false⟩
        else if jsTruthy p.email ∧ p.email_verified = some false then
          ⟨.emailNotVerified, true, true, false⟩
        else if jsTruthy p.sub then
          match mint with
          | .ok t =>
            ⟨.success ⟨p.sub, p.email, p.name, p.picture⟩ (some t), true, true, true⟩
          | .error _ =>
            ⟨.success ⟨p.sub, p.email, p.name, p.picture⟩ none, true, true, true⟩
        else
          ⟨.success ⟨p.sub, p.email, p.name, p.picture⟩ none, true, true, false⟩

/-- Fields of a fetched in-app purchase (purchases.products.get). -/
structure InAppPurchase where
  purchaseState : Option Int
  acknowledgementState : Option Int
  consumptionState : Option Int
  orderId : Option String
  purchaseTimeMillis : Option String
  kind : Option String
deriving Repr, DecidableEq

/-- Fields of a fetched subscription (purchases.subscriptions.get). -/
structure SubscriptionPurchase where
  expiryTimeMillis : Option String
  autoRenewing : Option Bool
  paymentState : Option Int
  cancelReason : Option Int
  orderId : Option String
  acknowledgementState : Option Int
deriving Repr, DecidableEq

/-- Responses the purchase handler can send, one constructor per
response site in the source. -/
inductive PurchaseResponse where
  | noContent (body : String)
  | methodNotAllowed
  | missingFields (required : String)
  | missingSecret
  | inapp (ok : Bool) (productId : String) (orderId : Option String)
      (purchaseState : Option Int) (acknowledgementState : Option Int)
      (consumptionState : Option Int) (purchaseTimeMillis : Option String)
      (kind : Option String)
  | subs (ok : Bool) (subscriptionId : String) (orderId : Option String)
      (expiryTimeMillis : Option String) (autoRenewing : Option Bool)
      (paymentState : Option Int) (cancelReason : Option Int)
      (acknowledgementState : Option Int)
  | backendError (details : String)
deriving Repr, DecidableEq

/-- HTTP status attached to each purchase response in the source. -/
def PurchaseResponse.status : PurchaseResponse → Nat
  | .noContent _ => 204
  | .methodNotAllowed => 405
  | .missingFields _ => 400
  | .missingSecret => 500
  | .inapp _ _ _ _ _ _ _ _ => 200
  | .subs _ _ _ _ _ _ _ _ => 200
  | .backendError _ => 500

/-- The ok field of a 200 purchase response, when the response has one. -/
def PurchaseResponse.okField : PurchaseResponse → Option Bool
  | .inapp ok _ _ _ _ _ _ _ => some ok
  | .subs ok _ _ _ _ _ _ _ => some ok
  | _ => none

/-- Result of one purchase-handler invocation: the response sent, whether
the credential secret was read, which billing fetches ran, and how many
acknowledge calls were issued on each branch. -/
structure PurchaseOutcome where
  response : PurchaseResponse
  secretResolved : Bool
  productGetCalled : Bool
  subGetCalled : Bool
  productAckCalls : Nat
  subAckCalls : Nat
deriving Repr, DecidableEq

/-- The computation of the active flag in the subscription branch:
!!data.expiryTimeMillis && Number(data.expiryTimeMillis) > Date.now(). -/
def subscriptionActive (expiryTimeMillis : Option String) (now : Int) : Bool :=
  jsTruthy expiryTimeMillis &&
    (match expiryTimeMillis with
     | some s =>
       match jsNumber s with
       | some n => decide (n > now)
       | none => false
     | none => false)

/-- The verifyPurchase handler of the complete revision.  Inputs: the
HTTP method, the body fields, the service-account secret value (unset
reads as ""), the current wall-clock time in milliseconds, and oracles
for credential parsing and the two billing fetches; acknowledge calls
are counted, since the source swallows their failures. -/
def verifyPurchase (method : String)
    (packageName productId subscriptionId purchaseToken : Option String)
    (acknowledge : Option Bool) (developerPayload : Option String)
    (gpJson : String) (now : Int)
    (credParse : Except String Unit)
    (productFetch : Except String InAppPurchase)
    (subFetch : Except String SubscriptionPurchase) : PurchaseOutcome :=
  if method = "OPTIONS" then
    ⟨.noContent "", false, false, false, 0, 0⟩
  else if method ≠ "POST" then
    ⟨.methodNotAllowed, false, false, false, 0, 0⟩
  else if ¬ jsTruthy packageName ∨ ¬ jsTruthy purchaseToken ∨
          (¬ jsTruthy productId ∧ ¬ jsTruthy subscriptionId) then
    ⟨.missingFields "packageName, purchaseToken, and (productId or subscriptionId)",
      false, false, false, 0, 0⟩
  else if gpJson = "" then
    ⟨.missingSecret, true, false, false, 0, 0⟩
  else
    match credParse with
    | .error e => ⟨.backendError e, true, false, false, 0, 0⟩
    | .ok _ =>
      if jsTruthy productId then
        match productFetch with
        | .error e => ⟨.backendError e, true, true, false, 0, 0⟩
        | .ok d =>
          let acknowledged := d.acknowledgementState = some 1
          let purchased := d.purchaseState = some 0
          let ackCalls : Nat :=
            if jsTruthyBool acknowledge ∧ purchased ∧ ¬ acknowledged then 1 else 0
          ⟨.inapp purchased (jsString productId) d.orderId d.purchaseState
              d.acknowledgementState d.consumptionState d.purchaseTimeMillis d.kind,
            true, true, false, ackCalls, 0⟩
      else
        let subId := jsString subscriptionId
        match subFetch with
        | .error e => ⟨.backendError e, true, false, true, 0, 0⟩
        | .ok d =>
          let acknowledged := d.acknowledgementState = some 1
          let active := subscriptionActive d.expiryTimeMillis now
          let ackCalls : Nat :=
            if jsTruthyBool acknowledge ∧ ¬ acknowledged then 1 else 0
          ⟨.subs active subId d.orderId d.expiryTimeMillis d.autoRenewing
              d.paymentState d.cancelReason d.acknowledgementState,
            true, false, true, 0, ackCalls⟩

end JustOneMatch

namespace JustOneMatch.Rev0

/-- Responses of the earliest revision of the identity handler
(src/unnamed/part_000). -/
inductive IdResponse where
  | missingIdToken
  | invalidToken
  | success (userId email name picture : Option String)
  | serverError (message : String)
deriving Repr, DecidableEq

/-- HTTP status attached to each response of the earliest revision. -/
def IdResponse.status : IdResponse → Nat
  | .missingIdToken => 400
  | .invalidToken => 401
  | .success _ _ _ _ => 200
  | .serverError _ => 500

/-- The verifyGoogleIdToken handler of the earliest revision
(src/unnamed/part_000): no method gate, hardcoded audiences, and a
single catch-all that maps any thrown error, in particular a verifier
rejection, to a 500 response. -/
def verifyGoogleIdToken (token : Option String)
    (verifier : Except String (Option TokenPayload)) : IdResponse :=
  if ¬ jsTruthy token then .missingIdToken
  else
    match verifier with
    | .error e => .serverError e
    | .ok none => .invalidToken
    | .ok (some p) => .success p.sub p.email p.name p.picture

end JustOneMatch.Rev0

namespace JustOneMatch

/-- C1 counterexample: a request whose verifier payload has a valid
issuer, an allowlisted audience, an email claim present, and NO
email-verified flag at all (undefined, hence not true) still receives
the 200 ok:true success response carrying a googleUser — refuting the
claim that success requires the email-verified flag to be true whenever
an email claim is present. -/
theorem c1_counterexample :
    (verifyGoogleIdToken "POST" (some "tok") "aud1" ""
        (Except.ok (some ⟨some "sub1", some "user@example.com", none,
          some "accounts.google.com", some "aud1", none, none⟩))
        (Except.ok "fct")).response =
      IdResponse.success ⟨some "sub1", some "user@example.com", none, none⟩ (some "fct") ∧
    (verifyGoogleIdToken "POST" (some "tok") "aud1" ""
        (Except.ok (some ⟨some "sub1", some "user@example.com", none,
          some "accounts.google.com", some "aud1", none, none⟩))
        (Except.ok "fct")).response.status = 200 ∧
    jsTruthy (some "user@example.com") = true ∧
    (none : Option Bool) ≠ some true := by
  decide

/-- C1 (amended): a success response (200 with ok:true and googleUser)
is emitted only when the verifier payload's issuer is one of the two
accepted Google issuers, its stringified audience is a member of the
resolved allowlist, and the email claim is absent OR the email-verified
flag is not explicitly false (an absent flag is also accepted). -/
theorem c1_success_requires_checks (method : String) (idToken : Option String)
    (audsSecret webSecret : String)
    (verifier : Except String (Option TokenPayload))
    (mint : Except String String) (gu : GoogleUser) (fct : Option String)
    (h : (verifyGoogleIdToken method idToken audsSecret webSecret verifier mint).response
          = IdResponse.success gu fct) :
    ∃ p, verifier = Except.ok (some p) ∧
      (p.iss = some "accounts.google.com" ∨ p.iss = some "https://accounts.google.com") ∧
      (resolveAllowlist audsSecret webSecret).contains (jsString p.aud) = true ∧
      (jsTruthy p.email = false ∨ p.email_verified ≠ some false) := by
  cases verifier with
  | error e =>
    by_cases hm1 : method = "OPTIONS"
    · simp [verifyGoogleIdToken, hm1] at h
    by_cases hm2 : method = "POST"
    case neg => simp [verifyGoogleIdToken, hm1, hm2] at h
    by_cases ht : jsTruthy idToken
    case neg => simp [verifyGoogleIdToken, hm1, hm2, ht] at h
    by_cases hlen : (resolveAllowlist audsSecret webSecret).length = 0 <;>
      simp [verifyGoogleIdToken, hm1, hm2, ht, hlen] at h
  | ok op =>
    cases op with
    | none =>
      by_cases hm1 : method = "OPTIONS"
      · simp [verifyGoogleIdToken, hm1] at h
      by_cases hm2 : method = "POST"
      case neg => simp [verifyGoogleIdToken, hm1, hm2] at h
      by_cases ht : jsTruthy idToken
      case neg => simp [verifyGoogleIdToken, hm1, hm2, ht] at h
      by_cases hlen : (resolveAllowlist audsSecret webSecret).length = 0 <;>
        simp [verifyGoogleIdToken, hm1, hm2, ht, hlen] at h
    | some p =>
      by_cases hm1 : method = "OPTIONS"
      · simp [verifyGoogleIdToken, hm1] at h
      by_cases hm2 : method = "POST"
      case neg => simp [verifyGoogleIdToken, hm1, hm2] at h
      by_cases ht : jsTruthy idToken
      case neg => simp [verifyGoogleIdToken, hm1, hm2, ht] at h
      by_cases hlen : (resolveAllowlist audsSecret webSecret).length = 0
      · simp [verifyGoogleIdToken, hm1, hm2, ht, hlen] at h
      by_cases hiss : p.iss = some "accounts.google.com" ∨
          p.iss = some "https://accounts.google.com"
      case neg => simp [verifyGoogleIdToken, hm1, hm2, ht, hlen, hiss] at h
      by_cases haud : jsString p.aud ∈ resolveAllowlist audsSecret webSecret
      case neg =>
        rcases hiss with hi | hi <;>
          simp [verifyGoogleIdToken, hm1, hm2, ht, hlen, hi, haud] at h
      by_cases hmail : jsTruthy p.email = true ∧ p.email_verified = some false
      · rcases hiss with hi | hi <;>
          simp [verifyGoogleIdToken, hm1, hm2, ht, hlen, hi, haud, hmail] at h
      refine ⟨p, rfl, hiss, by simpa using haud, ?_⟩
      by_cases he : jsTruthy p.email = false
      · exact Or.inl he
      · exact Or.inr fun hv => hmail ⟨by simpa using he, hv⟩

/-- C1 witness: the amended theorem applied to a concrete successful
request, whose payload has no email claim. -/
theorem c1_success_requires_checks_witness :
    ∃ p, (Except.ok (some (⟨some "sub1", none, none, some "accounts.google.com",
          some "aud1", none, none⟩ : TokenPayload))
        : Except String (Option TokenPayload)) = Except.ok (some p) ∧
      (p.iss = some "accounts.google.com" ∨ p.iss = some "https://accounts.google.com") ∧
      (resolveAllowlist "aud1" "").contains (jsString p.aud) = true ∧
      (jsTruthy p.email = false ∨ p.email_verified ≠ some false) :=
  c1_success_requires_checks "POST" (some "tok") "aud1" ""
    (Except.ok (some ⟨some "sub1", none, none, some "accounts.google.com",
      some "aud1", none, none⟩))
    (Except.ok "fct") ⟨some "sub1", none, none, none⟩ (some "fct") (by decide)

/-- C4 counterexample: in the earliest revision of the identity handler
(src/unnamed/part_000), an assertion the external verifier rejects (here
an expired token, i.e. the verifier call throws) is answered with HTTP
500, not 401 — refuting the claim that a verifier rejection never yields
a 500. -/
theorem c4_counterexample :
    (Rev0.verifyGoogleIdToken (some "expired-token")
        (Except.error "Token used too late")).status = 500 ∧
    Rev0.verifyGoogleIdToken (some "expired-token")
        (Except.error "Token used too late")
      = Rev0.IdResponse.serverError "Token used too late" := by
  decide

/-- C4 (amended): in the current revisions of the identity handler, an
assertion the external verifier rejects is answered with the 401
invalid-token response, never a 500; the earliest revision
(src/unnamed/part_000) instead folds the verifier failure into its
catch-all 500 response. -/
theorem c4_verifier_rejection_401 (idToken : Option String)
    (audsSecret webSecret : String) (e : String) (mint : Except String String)
    (htok : jsTruthy idToken = true)
    (haud : resolveAllowlist audsSecret webSecret ≠ []) :
    (verifyGoogleIdToken "POST" idToken audsSecret webSecret
        (Except.error e) mint).response = IdResponse.invalidGoogleIdToken e ∧
    (verifyGoogleIdToken "POST" idToken audsSecret webSecret
        (Except.error e) mint).response.status = 401 := by
  simp [verifyGoogleIdToken, htok, List.length_eq_zero, haud, IdResponse.status]

/-- C4 witness: the amended theorem applied at a concrete rejected
assertion. -/
theorem c4_verifier_rejection_401_witness :
    (verifyGoogleIdToken "POST" (some "tok") "aud1" ""
        (Except.error "invalid signature") (Except.ok "fct")).response
      = IdResponse.invalidGoogleIdToken "invalid signature" ∧
    (verifyGoogleIdToken "POST" (some "tok") "aud1" ""
        (Except.error "invalid signature") (Except.ok "fct")).response.status = 401 :=
  c4_verifier_rejection_401 (some "tok") "aud1" "" "invalid signature"
    (Except.ok "fct") (by decide) (by decide)

/-- C7: for every non-empty assertion, when the resolved audience
allowlist is empty the handler returns the 500 no-audience-configured
response and never invokes the external verifier. -/
theorem c7_empty_allowlist (idToken : Option String) (audsSecret webSecret : String)
    (verifier : Except String (Option TokenPayload)) (mint : Except String String)
    (htok : jsTruthy idToken = true)
    (hres : resolveAllowlist audsSecret webSecret = []) :
    (verifyGoogleIdToken "POST" idToken audsSecret webSecret verifier mint).response
      = IdResponse.noAudienceConfigured ∧
    (verifyGoogleIdToken "POST" idToken audsSecret webSecret verifier mint).response.status
      = 500 ∧
    (verifyGoogleIdToken "POST" idToken audsSecret webSecret verifier mint).verifierCalled
      = false := by
  simp [verifyGoogleIdToken, htok, hres, IdResponse.status]

/-- C7 witness: the theorem applied with both audience secrets unset and
an arbitrary assertion. -/
theorem c7_empty_allowlist_witness :
    (verifyGoogleIdToken "POST" (some "any-token") "" ""
        (Except.ok none) (Except.ok "fct")).response
      = IdResponse.noAudienceConfigured ∧
    (verifyGoogleIdToken "POST" (some "any-token") "" ""
        (Except.ok none) (Except.ok "fct")).response.status = 500 ∧
    (verifyGoogleIdToken "POST" (some "any-token") "" ""
        (Except.ok none) (Except.ok "fct")).verifierCalled = false :=
  c7_empty_allowlist (some "any-token") "" "" (Except.ok none) (Except.ok "fct")
    (by decide) (by decide)

/-- C9: the resolved audience allowlist computed by the source equals
the spec's formulation as an ordered list of configuration sources where
the first non-empty source wins, followed by comma-split, trim, and
dropping empty entries. -/
theorem c9_allowlist_resolution (auds web : String) :
    resolveAllowlist auds web = specResolveAllowlist [auds, web] := by
  by_cases h1 : auds = "" <;> by_cases h2 : web = "" <;>
    simp [resolveAllowlist, specResolveAllowlist, h1, h2, List.find?]

end JustOneMatch

namespace JustOneMatch

/-- Truthiness of an absent value reduces to false. -/
@[simp] lemma jsTruthy_none : jsTruthy none = false := rfl

/-- C2 counterexample: a purchase query supplying BOTH productId and
subscriptionId (with packageName and purchaseToken present) does not
fail with the 400 MissingFields error — the handler proceeds into the
in-app branch and answers 200 — refuting the claim that both-present
also yields MissingFields. -/
theorem c2_counterexample :
    (verifyPurchase "POST" (some "com.x.y") (some "p1") (some "s1") (some "t1")
        none none "svc" 0 (Except.ok ())
        (Except.ok ⟨some 0, some 1, some 0, some "o", some "1", some "k"⟩)
        (Except.error "unused")).response.status = 200 ∧
    (verifyPurchase "POST" (some "com.x.y") (some "p1") (some "s1") (some "t1")
        none none "svc" 0 (Except.ok ())
        (Except.ok ⟨some 0, some 1, some 0, some "o", some "1", some "k"⟩)
        (Except.error "unused")).productGetCalled = true ∧
    (verifyPurchase "POST" (some "com.x.y") (some "p1") (some "s1") (some "t1")
        none none "svc" 0 (Except.ok ())
        (Except.ok ⟨some 0, some 1, some 0, some "o", some "1", some "k"⟩)
        (Except.error "unused")).response ≠
      PurchaseResponse.missingFields
        "packageName, purchaseToken, and (productId or subscriptionId)" := by
  decide

/-- C2 (amended): with packageName and purchaseToken present, a purchase
query with BOTH productId and subscriptionId absent fails with the 400
MissingFields error naming the required combination; a query with BOTH
present does not fail, the handler proceeds and the in-app (productId)
branch wins. -/
theorem c2_missing_fields
    (packageName productId subscriptionId purchaseToken : Option String)
    (acknowledge : Option Bool) (developerPayload : Option String)
    (gpJson : String) (now : Int) (credParse : Except String Unit)
    (productFetch : Except String InAppPurchase)
    (subFetch : Except String SubscriptionPurchase)
    (hpkg : jsTruthy packageName = true) (htok : jsTruthy purchaseToken = true) :
    (jsTruthy productId = false ∧ jsTruthy subscriptionId = false →
      (verifyPurchase "POST" packageName productId subscriptionId purchaseToken
          acknowledge developerPayload gpJson now credParse productFetch subFetch).response
        = PurchaseResponse.missingFields
            "packageName, purchaseToken, and (productId or subscriptionId)" ∧
      (verifyPurchase "POST" packageName productId subscriptionId purchaseToken
          acknowledge developerPayload gpJson now credParse productFetch subFetch).response.status
        = 400) ∧
    (jsTruthy productId = true → jsTruthy subscriptionId = true → gpJson ≠ "" →
      credParse = Except.ok () →
      (verifyPurchase "POST" packageName productId subscriptionId purchaseToken
          acknowledge developerPayload gpJson now credParse productFetch subFetch).productGetCalled
        = true ∧
      (verifyPurchase "POST" packageName productId subscriptionId purchaseToken
          acknowledge developerPayload gpJson now credParse productFetch subFetch).subGetCalled
        = false ∧
      (verifyPurchase "POST" packageName productId subscriptionId purchaseToken
          acknowledge developerPayload gpJson now credParse productFetch subFetch).response.status
        ≠ 400) := by
  constructor
  · rintro ⟨h1, h2⟩
    simp [verifyPurchase, hpkg, htok, h1, h2, PurchaseResponse.status]
  · intro h1 h2 hgp hcp
    subst hcp
    cases productFetch with
    | error e =>
      simp [verifyPurchase, hpkg, htok, h1, h2, hgp, PurchaseResponse.status]
    | ok d =>
      simp [verifyPurchase, hpkg, htok, h1, h2, hgp, PurchaseResponse.status]

/-- C2 witness: the amended theorem applied at a both-absent query and a
both-present query. -/
theorem c2_missing_fields_witness :
    (verifyPurchase "POST" (some "com.x.y") none none (some "t1")
        none none "svc" 0 (Except.ok ())
        (Except.error "u") (Except.error "u2")).response
      = PurchaseResponse.missingFields
          "packageName, purchaseToken, and (productId or subscriptionId)" ∧
    (verifyPurchase "POST" (some "com.x.y") (some "p1") (some "s1") (some "t1")
        none none "svc" 0 (Except.ok ())
        (Except.error "u") (Except.error "u2")).productGetCalled = true := by
  constructor
  · exact ((c2_missing_fields (some "com.x.y") none none (some "t1")
      none none "svc" 0 (Except.ok ()) (Except.error "u") (Except.error "u2")
      (by decide) (by decide)).1 ⟨by decide, by decide⟩).1
  · exact ((c2_missing_fields (some "com.x.y") (some "p1") (some "s1") (some "t1")
      none none "svc" 0 (Except.ok ()) (Except.error "u") (Except.error "u2")
      (by decide) (by decide)).2 (by decide) (by decide) (by decide) rfl).1

/-- C3 counterexample: in the subscription branch, a request with
acknowledge requested, acknowledgementState 0 and an ALREADY EXPIRED
subscription (expiryTimeMillis 0 with now 1000, so the state is not
active, ok:false) still issues the acknowledge sub-call — refuting the
claim that the acknowledge attempt requires the active state, as the
in-app branch requires purchased. -/
theorem c3_counterexample :
    (verifyPurchase "POST" (some "com.x.y") none (some "s1") (some "t1")
        (some true) none "svc" 1000 (Except.ok ())
        (Except.error "unused")
        (Except.ok ⟨some "0", some false, some 1, none, some "o", some 0⟩)).subAckCalls
      = 1 ∧
    (verifyPurchase "POST" (some "com.x.y") none (some "s1") (some "t1")
        (some true) none "svc" 1000 (Except.ok ())
        (Except.error "unused")
        (Except.ok ⟨some "0", some false, some 1, none, some "o", some 0⟩)).response.okField
      = some false := by
  decide

/-- C3 (amended): in the subscription branch, the acknowledge sub-call
is attempted if and only if acknowledge was requested AND the
subscription is not yet acknowledged — the active/purchased state is NOT
part of the guard, unlike the in-app branch. -/
theorem c3_sub_acknowledge_guard
    (packageName subscriptionId purchaseToken : Option String)
    (acknowledge : Option Bool) (developerPayload : Option String)
    (gpJson : String) (now : Int)
    (productFetch : Except String InAppPurchase) (d : SubscriptionPurchase)
    (hpkg : jsTruthy packageName = true) (htok : jsTruthy purchaseToken = true)
    (hsub : jsTruthy subscriptionId = true) (hgp : gpJson ≠ "") :
    (verifyPurchase "POST" packageName none subscriptionId purchaseToken
        acknowledge developerPayload gpJson now (Except.ok ()) productFetch
        (Except.ok d)).subAckCalls
      = if jsTruthyBool acknowledge = true ∧ d.acknowledgementState ≠ some 1
        then 1 else 0 := by
  simp [verifyPurchase, hpkg, htok, hsub, hgp]

/-- C3 witness: the amended theorem applied at a concrete expired,
unacknowledged subscription with acknowledge requested. -/
theorem c3_sub_acknowledge_guard_witness :
    (verifyPurchase "POST" (some "com.x.y") none (some "s1") (some "t1")
        (some true) none "svc" 1000 (Except.ok ()) (Except.error "unused")
        (Except.ok ⟨some "0", some false, some 1, none, some "o", some 0⟩)).subAckCalls
      = if jsTruthyBool (some true) = true ∧ (some 0 : Option Int) ≠ some 1
        then 1 else 0 :=
  c3_sub_acknowledge_guard (some "com.x.y") (some "s1") (some "t1")
    (some true) none "svc" 1000 (Except.error "unused")
    ⟨some "0", some false, some 1, none, some "o", some 0⟩
    (by decide) (by decide) (by decide) (by decide)

/-- C5: in the in-app branch, a purchase with purchaseState 0 and
acknowledgementState 0 and acknowledge requested triggers exactly one
acknowledge call, while acknowledgementState 1 or a non-zero
purchaseState triggers none, even with acknowledge requested. -/
theorem c5_inapp_acknowledge
    (packageName productId subscriptionId purchaseToken : Option String)
    (acknowledge : Option Bool) (developerPayload : Option String)
    (gpJson : String) (now : Int)
    (subFetch : Except String SubscriptionPurchase) (d : InAppPurchase)
    (hpkg : jsTruthy packageName = true) (htok : jsTruthy purchaseToken = true)
    (hpid : jsTruthy productId = true) (hgp : gpJson ≠ "") :
    (acknowledge = some true → d.purchaseState = some 0 →
      d.acknowledgementState = some 0 →
      (verifyPurchase "POST" packageName productId subscriptionId purchaseToken
          acknowledge developerPayload gpJson now (Except.ok ())
          (Except.ok d) subFetch).productAckCalls = 1) ∧
    (d.acknowledgementState = some 1 ∨ d.purchaseState ≠ some 0 →
      (verifyPurchase "POST" packageName productId subscriptionId purchaseToken
          acknowledge developerPayload gpJson now (Except.ok ())
          (Except.ok d) subFetch).productAckCalls = 0) := by
  constructor
  · intro ha h0 hack
    simp [verifyPurchase, hpkg, htok, hpid, hgp, ha, h0, hack, jsTruthyBool]
  · intro hst
    rcases hst with hack | hps
    · simp [verifyPurchase, hpkg, htok, hpid, hgp, hack]
    · simp [verifyPurchase, hpkg, htok, hpid, hgp, hps]

/-- C5 witness: the theorem applied at a purchased, unacknowledged
in-app purchase with acknowledge requested, and at a canceled one. -/
theorem c5_inapp_acknowledge_witness :
    (verifyPurchase "POST" (some "com.x.y") (some "p1") none (some "t1")
        (some true) none "svc" 0 (Except.ok ())
        (Except.ok ⟨some 0, some 0, some 0, some "o", some "1", some "k"⟩)
        (Except.error "u")).productAckCalls = 1 ∧
    (verifyPurchase "POST" (some "com.x.y") (some "p1") none (some "t1")
        (some true) none "svc" 0 (Except.ok ())
        (Except.ok ⟨some 1, some 0, some 0, some "o", some "1", some "k"⟩)
        (Except.error "u")).productAckCalls = 0 := by
  constructor
  · exact (c5_inapp_acknowledge (some "com.x.y") (some "p1") none (some "t1")
      (some true) none "svc" 0 (Except.error "u")
      ⟨some 0, some 0, some 0, some "o", some "1", some "k"⟩
      (by decide) (by decide) (by decide) (by decide)).1 rfl rfl rfl
  · exact (c5_inapp_acknowledge (some "com.x.y") (some "p1") none (some "t1")
      (some true) none "svc" 0 (Except.error "u")
      ⟨some 1, some 0, some 0, some "o", some "1", some "k"⟩
      (by decide) (by decide) (by decide) (by decide)).2 (Or.inr (by decide))

end JustOneMatch

namespace JustOneMatch

/-- C6: for every subscription verification that reaches the 200
response, the ok field equals the conjunction of expiryTimeMillis being
present and its numeric value being strictly greater than the current
wall-clock time, independent of autoRenewing and every other fetched
field. -/
theorem c6_subscription_ok
    (packageName subscriptionId purchaseToken : Option String)
    (acknowledge : Option Bool) (developerPayload : Option String)
    (gpJson : String) (now : Int)
    (productFetch : Except String InAppPurchase) (d : SubscriptionPurchase)
    (hpkg : jsTruthy packageName = true) (htok : jsTruthy purchaseToken = true)
    (hsub : jsTruthy subscriptionId = true) (hgp : gpJson ≠ "")
    (hnow : 0 ≤ now) :
    (verifyPurchase "POST" packageName none subscriptionId purchaseToken
        acknowledge developerPayload gpJson now (Except.ok ()) productFetch
        (Except.ok d)).response.okField
      = some (subscriptionActive d.expiryTimeMillis now) ∧
    (subscriptionActive d.expiryTimeMillis now = true ↔
      d.expiryTimeMillis.isSome = true ∧
        ∃ n, d.expiryTimeMillis.bind jsNumber = some n ∧ now < n) := by
  constructor
  · simp [verifyPurchase, hpkg, htok, hsub, hgp, PurchaseResponse.okField]
  · unfold subscriptionActive
    cases hE : d.expiryTimeMillis with
    | none => simp
    | some s =>
      by_cases hs : s = ""
      · subst hs
        have h0 : jsNumber "" = some 0 := by decide
        simp only [jsTruthy, Option.some_bind, Option.isSome_some, h0]
        constructor
        · intro hfalse
          simp at hfalse
        · rintro ⟨-, n, hn, hlt⟩
          injection hn with hn
          omega
      · cases hN : jsNumber s with
        | none => simp [jsTruthy, hs, hN]
        | some n =>
          simp only [jsTruthy, Option.some_bind, Option.isSome_some, hN]
          constructor
          · intro hact
            refine ⟨by trivial, n, rfl, ?_⟩
            simp [hs] at hact
            omega
          · rintro ⟨-, m, hm, hlt⟩
            injection hm with hm
            subst hm
            simp [hs]
            omega

/-- C6 witness: the theorem applied at a subscription expiring at time
2000 observed at time 1000, so the response carries ok:true. -/
theorem c6_subscription_ok_witness :
    (verifyPurchase "POST" (some "com.x.y") none (some "s1") (some "t1")
        none none "svc" 1000 (Except.ok ()) (Except.error "u")
        (Except.ok ⟨some "2000", some false, some 1, none, some "o", some 1⟩)).response.okField
      = some (subscriptionActive (some "2000") 1000) ∧
    (subscriptionActive (some "2000") 1000 = true ↔
      (some "2000" : Option String).isSome = true ∧
        ∃ n, (some "2000" : Option String).bind jsNumber = some n ∧ (1000 : Int) < n) :=
  c6_subscription_ok (some "com.x.y") (some "s1") (some "t1") none none "svc" 1000
    (Except.error "u") ⟨some "2000", some false, some 1, none, some "o", some 1⟩
    (by decide) (by decide) (by decide) (by decide) (by decide)

/-- C8: for an otherwise-valid identity assertion (valid issuer,
allowlisted audience, passing email check, subject present), a throwing
session-token minting step still yields the 200 success response with
the verified identity and firebaseCustomToken null. -/
theorem c8_mint_failure_best_effort (idToken : Option String)
    (audsSecret webSecret : String) (p : TokenPayload) (e : String)
    (htok : jsTruthy idToken = true)
    (hiss : p.iss = some "accounts.google.com" ∨ p.iss = some "https://accounts.google.com")
    (haud : jsString p.aud ∈ resolveAllowlist audsSecret webSecret)
    (hmail : ¬ (jsTruthy p.email = true ∧ p.email_verified = some false))
    (hsub : jsTruthy p.sub = true) :
    (verifyGoogleIdToken "POST" idToken audsSecret webSecret
        (Except.ok (some p)) (Except.error e)).response
      = IdResponse.success ⟨p.sub, p.email, p.name, p.picture⟩ none ∧
    (verifyGoogleIdToken "POST" idToken audsSecret webSecret
        (Except.ok (some p)) (Except.error e)).response.status = 200 := by
  have hlen : ¬ (resolveAllowlist audsSecret webSecret).length = 0 := by
    intro h0
    rw [List.length_eq_zero] at h0
    rw [h0] at haud
    exact absurd haud (List.not_mem_nil _)
  rcases hiss with hi | hi <;>
    simp [verifyGoogleIdToken, htok, hlen, hi, haud, hmail, hsub, IdResponse.status]

/-- C8 witness: the theorem applied at a concrete valid assertion whose
minting step throws. -/
theorem c8_mint_failure_best_effort_witness :
    (verifyGoogleIdToken "POST" (some "tok") "aud1" ""
        (Except.ok (some ⟨some "sub1", some "a@b.c", some true,
          some "accounts.google.com", some "aud1", some "Nm", some "pic"⟩))
        (Except.error "mint failed")).response
      = IdResponse.success ⟨some "sub1", some "a@b.c", some "Nm", some "pic"⟩ none ∧
    (verifyGoogleIdToken "POST" (some "tok") "aud1" ""
        (Except.ok (some ⟨some "sub1", some "a@b.c", some true,
          some "accounts.google.com", some "aud1", some "Nm", some "pic"⟩))
        (Except.error "mint failed")).response.status = 200 :=
  c8_mint_failure_best_effort (some "tok") "aud1" ""
    ⟨some "sub1", some "a@b.c", some true, some "accounts.google.com",
      some "aud1", some "Nm", some "pic"⟩ "mint failed"
    (by decide) (by decide) (by decide) (by decide) (by decide)

/-- C10: a request whose method is neither POST nor OPTIONS is answered
405 Method Not Allowed by both handlers with no configuration
resolution and no external call, and an OPTIONS request is answered 204
with an empty body. -/
theorem c10_method_gate (method : String) (idToken : Option String)
    (audsSecret webSecret : String) (verifier : Except String (Option TokenPayload))
    (mint : Except String String)
    (packageName productId subscriptionId purchaseToken : Option String)
    (acknowledge : Option Bool) (developerPayload : Option String)
    (gpJson : String) (now : Int) (credParse : Except String Unit)
    (productFetch : Except String InAppPurchase)
    (subFetch : Except String SubscriptionPurchase) :
    (method ≠ "POST" ∧ method ≠ "OPTIONS" →
      verifyGoogleIdToken method idToken audsSecret webSecret verifier mint
        = ⟨IdResponse.methodNotAllowed, false, false, false⟩ ∧
      IdResponse.status IdResponse.methodNotAllowed = 405 ∧
      verifyPurchase method packageName productId subscriptionId purchaseToken
          acknowledge developerPayload gpJson now credParse productFetch subFetch
        = ⟨PurchaseResponse.methodNotAllowed, false, false, false, 0, 0⟩ ∧
      PurchaseResponse.status PurchaseResponse.methodNotAllowed = 405) ∧
    (verifyGoogleIdToken "OPTIONS" idToken audsSecret webSecret verifier mint
        = ⟨IdResponse.noContent "", false, false, false⟩ ∧
     verifyPurchase "OPTIONS" packageName productId subscriptionId purchaseToken
          acknowledge developerPayload gpJson now credParse productFetch subFetch
        = ⟨PurchaseResponse.noContent "", false, false, false, 0, 0⟩ ∧
     IdResponse.status (IdResponse.noContent "") = 204 ∧
     PurchaseResponse.status (PurchaseResponse.noContent "") = 204) := by
  constructor
  · rintro ⟨hp, ho⟩
    refine ⟨?_, rfl, ?_, rfl⟩
    · simp [verifyGoogleIdToken, hp, ho]
    · simp [verifyPurchase, hp, ho]
  · refine ⟨?_, ?_, rfl, rfl⟩
    · simp [verifyGoogleIdToken]
    · simp [verifyPurchase]

/-- C10 witness: the theorem applied at a GET request to both handlers,
and the OPTIONS behavior at the same inputs. -/
theorem c10_method_gate_witness :
    (verifyGoogleIdToken "GET" (some "tok") "aud1" "" (Except.ok none)
        (Except.error "m")
      = ⟨IdResponse.methodNotAllowed, false, false, false⟩) ∧
    (verifyPurchase "GET" (some "p") none (some "s") (some "t") none none
        "svc" 0 (Except.ok ()) (Except.error "u") (Except.error "u2")
      = ⟨PurchaseResponse.methodNotAllowed, false, false, false, 0, 0⟩) ∧
    (verifyGoogleIdToken "OPTIONS" (some "tok") "aud1" "" (Except.ok none)
        (Except.error "m")
      = ⟨IdResponse.noContent "", false, false, false⟩) ∧
    (verifyPurchase "OPTIONS" (some "p") none (some "s") (some "t") none none
        "svc" 0 (Except.ok ()) (Except.error "u") (Except.error "u2")
      = ⟨PurchaseResponse.noContent "", false, false, false, 0, 0⟩) := by
  have h := c10_method_gate "GET" (some "tok") "aud1" "" (Except.ok none)
    (Except.error "m") (some "p") none (some "s") (some "t") none none
    "svc" 0 (Except.ok ()) (Except.error "u") (Except.error "u2")
  obtain ⟨h1, h2⟩ := h
  obtain ⟨ha, -, hb, -⟩ := h1 ⟨by decide, by decide⟩
  exact ⟨ha, hb, h2.1, h2.2.1⟩

end JustOneMatch
